import Mathlib

/-!
Verification development for the `asynchy` command-line interface
(`asynchy/cli.py`): a shallow embedding of its configuration handling
(validation, YAML config read/write, the `init` and `sync` subcommands
and the top-level dispatcher), together with theorems settling the
specification claims about it.

Modelling conventions:
* YAML values are the inductive `YVal`; a config mapping is an
  association list `List (String × YVal)` (Python `dict`s built by this
  code never contain duplicate keys).
* The content of a file is a `Doc`: either well-formed YAML serialising a
  `YVal` (the pyyaml `dump`/`load` pair round-trips the values this program
  writes), or malformed text (`Doc.bad`), on which `yaml.load` raises a
  `YAMLError`.
* The filesystem is first-order: an association list of files (later
  writes are consed on the front), a list of existing directories, and a
  list of paths on which opening for writing raises `IOError`.
* Python exceptions are the inductive `PyError`.  `IOError` covers
  `OSError` and its subclasses (`FileNotFoundError`, ...); a function
  result `Except.error e` means the Python call raised `e` to its
  caller.
* `print` output is dropped; the `return n` of a callback is its exit code.
-/

/-- YAML values as produced by `yaml.load` / consumed by `yaml.dump`. -/
inductive YVal where
  | str (s : String)
  | int (n : Int)
  | bool (b : Bool)
  | null
  | list (items : List YVal)
  | map (entries : List (String × YVal))

/-- Content of a file on disk: either well-formed YAML serialising a
value, or malformed text that `yaml.load` rejects. -/
inductive Doc where
  | yaml (v : YVal)
  | bad

/-- Python exceptions raised by the embedded code. -/
inductive PyError where
  | ioError
  | invalidConfig
  | yamlError
  | attributeError
  | keyError
deriving DecidableEq, Repr

/-- First-order filesystem: files with their contents (front entry
shadows later ones), existing directories, and paths on which opening
for writing fails with `IOError`. -/
structure FS where
  files : List (String × Doc)
  dirs : List String
  roFiles : List String

/-- First-match association-list lookup; Python `dict` indexing on the
mappings this code builds (which have no duplicate keys). -/
def lookupKey (entries : List (String × YVal)) (k : String) : Option YVal :=
  match entries with
  | [] => none
  | (k1, v) :: rest => if k1 = k then some v else lookupKey rest k

/-- First-match lookup among the file entries. -/
def lookupFile (files : List (String × Doc)) (p : String) : Option Doc :=
  match files with
  | [] => none
  | (q, d) :: rest => if q = p then some d else lookupFile rest p

/-- Content of the file at path `p`, if one exists. -/
def fileAt (fs : FS) (p : String) : Option Doc :=
  lookupFile fs.files p

/-- Models `os.path.exists`.  In Python, `os.path.exists("")` is always
`False` (the underlying `stat` call fails). -/
def path_exists (fs : FS) (p : String) : Bool :=
  if p = "" then false else (fileAt fs p).isSome || fs.dirs.contains p

/-- Drops trailing `/` characters, as the Python call `str.rstrip("/")`. -/
def rstripSlash (s : String) : String :=
  String.mk ((s.toList.reverse.dropWhile (fun c => c = '/')).reverse)

/-- Models `os.path.expanduser` with the home directory `home` of
the current user: expands a leading `~` or `~/`; other paths — including `~user`
forms, modelled as naming an unknown user — are returned unchanged. -/
def expanduser (home : String) (p : String) : String :=
  if p = "~" then (if rstripSlash home = "" then "/" else rstripSlash home)
  else if List.isPrefixOf ['~', '/'] p.toList then
    rstripSlash home ++ String.mk (p.toList.drop 1)
  else p

/-- Models `os.path.dirname` (POSIX): everything up to the last `/`,
with trailing slashes stripped unless the result is all slashes; `""`
when the path has no directory component. -/
def dirname (p : String) : String :=
  let cs := p.toList
  let i := cs.length - (cs.reverse.takeWhile (fun c => c ≠ '/')).length
  let head := cs.take i
  if head ≠ [] ∧ head.any (fun c => c ≠ '/') then
    String.mk ((head.reverse.dropWhile (fun c => c = '/')).reverse)
  else String.mk head

/-- Models `os.makedirs`.  `os.makedirs("")` raises `FileNotFoundError`
(a subclass of `OSError`/`IOError`); in `cli.py` it is only reached
under a `not os.path.exists(...)` guard, and other creations are
modelled as succeeding. -/
def makedirs (fs : FS) (d : String) : Except PyError FS :=
  if d = "" then Except.error PyError.ioError
  else Except.ok { fs with dirs := d :: fs.dirs }

/-- Writing `d` to the file at path `p` (a successful
`open(p, "w")` + `write`). -/
def writeFile (fs : FS) (p : String) (d : Doc) : FS :=
  { fs with files := (p, d) :: fs.files }

/-- Models `yaml.load`: well-formed YAML yields its value, malformed
text raises `YAMLError`. -/
def yaml_load (d : Doc) : Except PyError YVal :=
  match d with
  | Doc.yaml v => Except.ok v
  | Doc.bad => Except.error PyError.yamlError

/-- The `required_keys` list of `validate_config`. -/
def required_keys : List String := ["host", "port", "user", "keypath", "db"]

/-- Embeds `validate_config` (cli.py:19):
`all(k in cfg.keys() for k in required_keys)`.  Polymorphic in the value
type, as the Python code never inspects the values. -/
def validate_config {α : Type} (cfg : List (String × α)) : Bool :=
  required_keys.all (fun k => (cfg.map Prod.fst).contains k)

/-- Embeds `_read_config` (cli.py:37): open the file (`IOError` if it
cannot be read), `yaml.load` it, run `validate_config` and raise
`InvalidConfigError` when it returns false, else return the mapping.
When the loaded value is not a mapping, `cfg.keys()` inside
`validate_config` raises `AttributeError`. -/
def read_config (fs : FS) (path : String) : Except PyError (List (String × YVal)) :=
  match fileAt fs path with
  | none => Except.error PyError.ioError
  | some d =>
    match yaml_load d with
    | Except.error e => Except.error e
    | Except.ok (YVal.map entries) =>
      if validate_config entries then Except.ok entries
      else Except.error PyError.invalidConfig
    | Except.ok _ => Except.error PyError.attributeError

/-- Outcome of the dispatcher callback: the shared context object
(`ctx.obj`, `none` when never assigned) and the returned exit code. -/
structure CliResult where
  ctxObj : Option (List (String × YVal))
  code : Int

/-- Embeds the group callback `cli` (cli.py:68): for subcommands other
than `init`, eagerly read the config at the tilde-expanded `--config`
path into `ctx.obj`; `except IOError` prints and returns 1,
`except InvalidConfigError` prints and returns 2, any other exception
propagates; on success (and for `init`) return 0. -/
def cli (fs : FS) (home : String) (invokedSubcommand : String) (config : String) :
    Except PyError CliResult :=
  if invokedSubcommand ≠ "init" then
    match read_config fs (expanduser home config) with
    | Except.ok cfg => Except.ok ⟨some cfg, 0⟩
    | Except.error PyError.ioError => Except.ok ⟨none, 1⟩
    | Except.error PyError.invalidConfig => Except.ok ⟨none, 2⟩
    | Except.error e => Except.error e
  else Except.ok ⟨none, 0⟩

/-- The mapping `init` builds (cli.py:115): `host`, `port`, `user` as
given, `keypath` and `db` tilde-expanded. -/
def initCfg (home host : String) (port : Int) (user keypath db : String) :
    List (String × YVal) :=
  [("host", YVal.str host),
   ("port", YVal.int port),
   ("user", YVal.str user),
   ("keypath", YVal.str (expanduser home keypath)),
   ("db", YVal.str (expanduser home db))]

/-- Outcome of the `init` callback: the filesystem afterwards and the
returned exit code. -/
structure InitResult where
  fs : FS
  code : Int

/-- The tail of `init` from cli.py:134: create the parent directory when
missing, then write the YAML dump of `cfg`; `except IOError` around the
write prints and returns 1, a successful write returns 0.  The
`makedirs` call sits outside that handler, so its exceptions
propagate. -/
def initWrite (fs : FS) (cp : String) (cfg : List (String × YVal)) :
    Except PyError InitResult :=
  match (if path_exists fs (dirname cp) then Except.ok fs
         else makedirs fs (dirname cp) : Except PyError FS) with
  | Except.error e => Except.error e
  | Except.ok fs1 =>
    if fs1.roFiles.contains cp then Except.ok ⟨fs1, 1⟩
    else Except.ok ⟨writeFile fs1 cp (Doc.yaml (YVal.map cfg)), 0⟩

/-- Embeds the `init` callback (cli.py:113): build the mapping, expand
the save path, and when a file already exists there without
`--overwrite` ask `click.confirm` (modelled by `confirmAnswer`) —
declining prints and returns 1; otherwise fall through to the write. -/
def init (fs : FS) (home : String) (config_path host : String) (port : Int)
    (user keypath db : String) (overwrite confirmAnswer : Bool) :
    Except PyError InitResult :=
  let cfg := initCfg home host port user keypath db
  let cp := expanduser home config_path
  if !overwrite && path_exists fs cp then
    if !confirmAnswer then Except.ok ⟨fs, 1⟩
    else initWrite fs cp cfg
  else initWrite fs cp cfg

/-- Kind of worker pool `sync` imports: `multiprocessing.pool.Pool`
(processes) or `multiprocessing.dummy.Pool` (threads). -/
inductive PoolKind where
  | procPool
  | threadPool
deriving DecidableEq, Repr

/-- A constructed pool: its kind and its `processes` count. -/
structure PoolSpec where
  kind : PoolKind
  processes : Nat

/-- Arguments the `RSyncTransfer` client is constructed with.  The
field `partFlag` models the `partial` keyword argument. -/
structure RSyncArgs where
  host : YVal
  user : YVal
  keypath : YVal
  port : YVal
  partFlag : Bool
  compress : Bool
  pool : PoolSpec

/-- The call `sync` makes to the external orchestration function
`main(rst, db, dest, src_prefix, order, limit)`, argument by
argument.  The field `srcPfx` models the `src_prefix` argument. -/
structure MainCall where
  rst : RSyncArgs
  db : YVal
  dest : String
  srcPfx : String
  order : String
  limit : Int

/-- Embeds the `sync` callback (cli.py:174): pick the pool kind by the
`parallel` flag, size it by `threads`, build the `RSyncTransfer` from
`ctx.obj` plus the flags and pool, and call `main`.  A missing key in
`ctx.obj` raises `KeyError`.  The parameter `partFlag` models the
`--partial` flag. -/
def sync (ctxObj : List (String × YVal)) (dest srcPfx order : String)
    (limit : Int) (parallel : Bool) (threads : Nat)
    (partFlag compress : Bool) : Except PyError MainCall :=
  let pool : PoolSpec :=
    ⟨if parallel then PoolKind.procPool else PoolKind.threadPool, threads⟩
  match lookupKey ctxObj "host", lookupKey ctxObj "user",
        lookupKey ctxObj "keypath", lookupKey ctxObj "port",
        lookupKey ctxObj "db" with
  | some h, some u, some k, some p, some d =>
    Except.ok ⟨⟨h, u, k, p, partFlag, compress, pool⟩, d, dest, srcPfx, order, limit⟩
  | _, _, _, _, _ => Except.error PyError.keyError

/-- Whether a YAML value is a mapping; on a non-mapping value the Python
call `cfg.keys()` raises `AttributeError`. -/
def YVal.isMap : YVal → Bool
  | YVal.map _ => true
  | _ => false

/-- Fixture: empty filesystem in which the directory `/home/u`
exists. -/
def fsHome : FS := ⟨[], ["/home/u"], []⟩

/-- Fixture: a config mapping with all five required keys. -/
def cfgDemo : List (String × YVal) :=
  [("host", YVal.str "h"), ("port", YVal.int 22), ("user", YVal.str "u"),
   ("keypath", YVal.str "/k"), ("db", YVal.str "/d")]

/-- Fixture: a filesystem holding a valid config file at `/c.yaml`. -/
def fsCfg : FS := ⟨[("/c.yaml", Doc.yaml (YVal.map cfgDemo))], [], []⟩

/-- Fixture: a filesystem holding malformed YAML at `/c.yaml`. -/
def fsBad : FS := ⟨[("/c.yaml", Doc.bad)], [], []⟩

/-- Fixture: a filesystem with an existing file at the default expanded
config path `/home/u/.as.yaml`. -/
def fsExist : FS := ⟨[("/home/u/.as.yaml", Doc.yaml YVal.null)], [], []⟩

/-- Fixture: a filesystem with an existing file at the bare relative
path `as.yaml` (whose `dirname` is the empty string). -/
def fsBare : FS := ⟨[("as.yaml", Doc.yaml YVal.null)], [], []⟩

/-! ## Helper lemmas -/

/-- The mapping `init` builds always passes validation. -/
theorem validate_initCfg (home host : String) (port : Int) (user keypath db : String) :
    validate_config (initCfg home host port user keypath db) = true := rfl

/-- Reading back the path just written yields the written document. -/
theorem fileAt_writeFile (fs : FS) (p : String) (d : Doc) :
    fileAt (writeFile fs p d) p = some d := by
  simp [fileAt, writeFile, lookupFile]

/-- No path ever exists at the empty string. -/
theorem path_exists_empty (fs : FS) : path_exists fs "" = false := by
  simp [path_exists]

/-- When `initWrite` returns exit code 0, the target file holds the YAML
dump of the mapping. -/
theorem initWrite_ok_fileAt (fs : FS) (cp : String) (cfg : List (String × YVal))
    (fs2 : FS) (h : initWrite fs cp cfg = Except.ok ⟨fs2, 0⟩) :
    fileAt fs2 cp = some (Doc.yaml (YVal.map cfg)) := by
  unfold initWrite makedirs at h
  by_cases h1 : path_exists fs (dirname cp) = true
  · simp only [h1, if_true] at h
    by_cases h2 : cp ∈ fs.roFiles
    · simp [h2] at h
    · simp [h2] at h
      rw [← h]
      exact fileAt_writeFile fs cp _
  · simp only [Bool.not_eq_true] at h1
    simp only [h1, Bool.false_eq_true, if_false] at h
    by_cases h3 : dirname cp = ""
    · simp [h3] at h
    · simp only [h3, if_neg, if_false, ite_false] at h
      by_cases h2 : cp ∈ fs.roFiles
      · simp [h2] at h
      · simp [h2] at h
        rw [← h]
        exact fileAt_writeFile _ cp _

/-- When `init` returns exit code 0, the expanded save path holds the
YAML dump of the collected mapping. -/
theorem init_ok_fileAt (fs : FS) (home cp host : String) (port : Int)
    (user keypath db : String) (ow conf : Bool) (fs2 : FS)
    (h : init fs home cp host port user keypath db ow conf = Except.ok ⟨fs2, 0⟩) :
    fileAt fs2 (expanduser home cp) =
      some (Doc.yaml (YVal.map (initCfg home host port user keypath db))) := by
  unfold init at h
  by_cases h1 : (!ow && path_exists fs (expanduser home cp)) = true
  · rw [if_pos h1] at h
    by_cases h2 : (!conf) = true
    · rw [if_pos h2] at h
      exact absurd h (by simp)
    · rw [if_neg h2] at h
      exact initWrite_ok_fileAt _ _ _ _ h
  · rw [if_neg h1] at h
    exact initWrite_ok_fileAt _ _ _ _ h

/-- With a nonempty parent-directory component and a writable target,
`initWrite` succeeds and stores the mapping. -/
theorem initWrite_success (fs : FS) (cp : String) (cfg : List (String × YVal))
    (hdir : dirname cp ≠ "") (hw : cp ∉ fs.roFiles) :
    ∃ fs2, initWrite fs cp cfg = Except.ok ⟨fs2, 0⟩ ∧
      fileAt fs2 cp = some (Doc.yaml (YVal.map cfg)) := by
  unfold initWrite makedirs
  by_cases h1 : path_exists fs (dirname cp) = true
  · exact ⟨writeFile fs cp (Doc.yaml (YVal.map cfg)), by simp [h1, hw],
      fileAt_writeFile _ _ _⟩
  · refine ⟨writeFile { fs with dirs := dirname cp :: fs.dirs } cp (Doc.yaml (YVal.map cfg)),
      ?_, fileAt_writeFile _ _ _⟩
    simp [h1, hdir, hw]

/-! ## Claims -/

/-- Claim C2: validation returns true if and only if all five keys
`host`, `port`, `user`, `keypath`, `db` are present as keys of the
mapping; the values are never inspected, so two mappings with the same
keys — even over different value types — validate identically. -/
theorem claim_C2 {α β : Type} (cfg : List (String × α)) (cfg2 : List (String × β)) :
    (validate_config cfg = true ↔
      ("host" ∈ cfg.map Prod.fst ∧ "port" ∈ cfg.map Prod.fst ∧
       "user" ∈ cfg.map Prod.fst ∧ "keypath" ∈ cfg.map Prod.fst ∧
       "db" ∈ cfg.map Prod.fst)) ∧
    (cfg.map Prod.fst = cfg2.map Prod.fst →
      validate_config cfg = validate_config cfg2) := by
  constructor
  · simp [validate_config, required_keys]
  · intro h
    simp [validate_config, h]

/-- Claim C2 witness: a mapping with Nat values and one with String
values, both holding the five keys, validate identically. -/
theorem claim_C2_witness :
    validate_config
        [("host", (1 : Nat)), ("port", 2), ("user", 3), ("keypath", 4), ("db", 5)] =
      validate_config
        [("host", "a"), ("port", "b"), ("user", "c"), ("keypath", "d"), ("db", "e")] :=
  (claim_C2
    [("host", (1 : Nat)), ("port", 2), ("user", 3), ("keypath", 4), ("db", 5)]
    [("host", "a"), ("port", "b"), ("user", "c"), ("keypath", "d"), ("db", "e")]).2
    (by rfl)

/-- Claim C1: for every subcommand other than `init`, the dispatcher
loads the config eagerly; an I/O error gives exit code 1 with no context
populated, a validation error gives exit code 2 with no context
populated, and success exposes the mapping through the context with
exit code 0. -/
theorem claim_C1 (fs : FS) (home sub config : String) (hsub : sub ≠ "init") :
    (read_config fs (expanduser home config) = Except.error PyError.ioError →
      cli fs home sub config = Except.ok ⟨none, 1⟩) ∧
    (read_config fs (expanduser home config) = Except.error PyError.invalidConfig →
      cli fs home sub config = Except.ok ⟨none, 2⟩) ∧
    (∀ cfg, read_config fs (expanduser home config) = Except.ok cfg →
      cli fs home sub config = Except.ok ⟨some cfg, 0⟩) := by
  refine ⟨fun h => ?_, fun h => ?_, fun cfg h => ?_⟩ <;> simp [cli, hsub, h]

/-- Claim C1 witness: invoking `sync` against an empty filesystem (the
config file is missing) exits with code 1 and no context. -/
theorem claim_C1_witness :
    cli ⟨[], [], []⟩ "/home/u" "sync" "~/.as.yaml" = Except.ok ⟨none, 1⟩ :=
  (claim_C1 ⟨[], [], []⟩ "/home/u" "sync" "~/.as.yaml" (by decide)).1 (by rfl)

/-- Claim C3: reading a config raises an I/O error when the file cannot
be read; on a file holding a YAML mapping it raises the config-invalid
error exactly when validation fails, and returns the parsed mapping when
validation succeeds. -/
theorem claim_C3 (fs : FS) (path : String) :
    (fileAt fs path = none → read_config fs path = Except.error PyError.ioError) ∧
    (∀ entries, fileAt fs path = some (Doc.yaml (YVal.map entries)) →
      ((read_config fs path = Except.error PyError.invalidConfig ↔
          validate_config entries = false) ∧
       (validate_config entries = true → read_config fs path = Except.ok entries))) := by
  constructor
  · intro h
    simp [read_config, h]
  · intro entries h
    constructor
    · cases hv : validate_config entries with
      | true => simp [read_config, h, yaml_load, hv]
      | false => simp [read_config, h, yaml_load, hv]
    · intro hv
      simp [read_config, h, yaml_load, hv]

/-- Claim C3 witness: reading a valid config file returns its parsed
mapping. -/
theorem claim_C3_witness : read_config fsCfg "/c.yaml" = Except.ok cfgDemo :=
  ((claim_C3 fsCfg "/c.yaml").2 cfgDemo (by rfl)).2 (by rfl)

/-- Claim C4: a config file written by a successful `init` run with
host="h", port=22, user="u", keypath="/k", db="./files.db" reads back as
exactly the mapping `init` wrote. -/
theorem claim_C4 (fs : FS) (home cp : String) (ow conf : Bool) (fs2 : FS)
    (h : init fs home cp "h" 22 "u" "/k" "./files.db" ow conf = Except.ok ⟨fs2, 0⟩) :
    read_config fs2 (expanduser home cp) =
      Except.ok (initCfg home "h" 22 "u" "/k" "./files.db") := by
  have hfile := init_ok_fileAt fs home cp "h" 22 "u" "/k" "./files.db" ow conf fs2 h
  simp [read_config, hfile, yaml_load, validate_initCfg]

/-- Claim C4 witness: the round trip on a concrete filesystem, with the
default save path under the existing home directory. -/
theorem claim_C4_witness :
    read_config
        (writeFile fsHome (expanduser "/home/u" "~/.as.yaml")
          (Doc.yaml (YVal.map (initCfg "/home/u" "h" 22 "u" "/k" "./files.db"))))
        (expanduser "/home/u" "~/.as.yaml") =
      Except.ok (initCfg "/home/u" "h" 22 "u" "/k" "./files.db") :=
  claim_C4 fsHome "/home/u" "~/.as.yaml" false false
    (writeFile fsHome (expanduser "/home/u" "~/.as.yaml")
      (Doc.yaml (YVal.map (initCfg "/home/u" "h" 22 "u" "/k" "./files.db"))))
    (by rfl)

/-- Claim C5: running `init` without `--overwrite` against an existing
config path and declining the confirmation returns exit code 1 and
leaves the filesystem — in particular the existing file — unmodified. -/
theorem claim_C5 (fs : FS) (home cp host : String) (port : Int) (user keypath db : String)
    (hex : path_exists fs (expanduser home cp) = true) :
    init fs home cp host port user keypath db false false = Except.ok ⟨fs, 1⟩ := by
  simp [init, hex]

/-- Claim C5 witness: declining at the existing `/home/u/.as.yaml`
returns the untouched filesystem with exit code 1. -/
theorem claim_C5_witness :
    init fsExist "/home/u" "~/.as.yaml" "h" 22 "u" "/k" "./files.db" false false =
      Except.ok ⟨fsExist, 1⟩ :=
  claim_C5 fsExist "/home/u" "~/.as.yaml" "h" 22 "u" "/k" "./files.db" (by rfl)

/-- Claim C6 counterexample: with `--overwrite` set against an existing
config file at the bare relative path `as.yaml`, the run raises an
unhandled exception out of `os.makedirs("")` — the contents are not
replaced and exit code 0 is not returned, refuting the claim as
stated. -/
theorem claim_C6_counterexample :
    path_exists fsBare (expanduser "/home/u" "as.yaml") = true ∧
    init fsBare "/home/u" "as.yaml" "h" 22 "u" "/k" "./files.db" true false =
      Except.error PyError.ioError := ⟨rfl, rfl⟩

/-- Claim C6 (amended): with `--overwrite` set against an existing
config path whose tilde-expanded form has a nonempty directory component
and is writable, the confirmation answer is irrelevant (none is
requested) and the run succeeds with exit code 0, having replaced the
file with the newly collected mapping. -/
theorem claim_C6 (fs : FS) (home cp host : String) (port : Int)
    (user keypath db : String) (conf1 conf2 : Bool)
    (hex : path_exists fs (expanduser home cp) = true)
    (hdir : dirname (expanduser home cp) ≠ "")
    (hw : expanduser home cp ∉ fs.roFiles) :
    (init fs home cp host port user keypath db true conf1 =
      init fs home cp host port user keypath db true conf2) ∧
    ∃ fs2, init fs home cp host port user keypath db true conf1 = Except.ok ⟨fs2, 0⟩ ∧
      fileAt fs2 (expanduser home cp) =
        some (Doc.yaml (YVal.map (initCfg home host port user keypath db))) :=
  ⟨rfl, initWrite_success fs (expanduser home cp)
    (initCfg home host port user keypath db) hdir hw⟩

/-- Claim C6 witness: overwriting the existing `/home/u/.as.yaml`
succeeds and stores the new mapping, independently of the confirmation
answer. -/
theorem claim_C6_witness :
    (init fsExist "/home/u" "~/.as.yaml" "h" 22 "u" "/k" "./files.db" true false =
      init fsExist "/home/u" "~/.as.yaml" "h" 22 "u" "/k" "./files.db" true true) ∧
    ∃ fs2, init fsExist "/home/u" "~/.as.yaml" "h" 22 "u" "/k" "./files.db" true false =
        Except.ok ⟨fs2, 0⟩ ∧
      fileAt fs2 (expanduser "/home/u" "~/.as.yaml") =
        some (Doc.yaml (YVal.map (initCfg "/home/u" "h" 22 "u" "/k" "./files.db"))) :=
  claim_C6 fsExist "/home/u" "~/.as.yaml" "h" 22 "u" "/k" "./files.db" false true
    (by rfl) (by decide) (by decide)

/-- Claim C7: `sync` chooses the process pool exactly when `parallel` is
set (the thread pool otherwise), sizes it by `threads`, builds the
transfer client from the config host, user, keypath and port plus the
partial and compress flags and the pool, and calls the orchestration
function with the client, the cache DB path, destination, source path
prefix, order and limit, in that role assignment. -/
theorem claim_C7 (cfg : List (String × YVal)) (dest srcPfx order : String) (limit : Int)
    (parallel : Bool) (threads : Nat) (partFlag compress : Bool)
    (vh vu vk vp vd : YVal)
    (hh : lookupKey cfg "host" = some vh) (hu : lookupKey cfg "user" = some vu)
    (hk : lookupKey cfg "keypath" = some vk) (hp : lookupKey cfg "port" = some vp)
    (hd : lookupKey cfg "db" = some vd) :
    sync cfg dest srcPfx order limit parallel threads partFlag compress =
      Except.ok ⟨⟨vh, vu, vk, vp, partFlag, compress,
        ⟨if parallel then PoolKind.procPool else PoolKind.threadPool, threads⟩⟩,
        vd, dest, srcPfx, order, limit⟩ := by
  simp [sync, hh, hu, hk, hp, hd]

/-- Claim C7 witness: a concrete `sync` invocation with `parallel` set
produces a process pool of size 4 and the expected call to the
orchestration function. -/
theorem claim_C7_witness :
    sync cfgDemo "./" "/" "ASC" 50 true 4 false true =
      Except.ok ⟨⟨YVal.str "h", YVal.str "u", YVal.str "/k", YVal.int 22, false, true,
        ⟨PoolKind.procPool, 4⟩⟩, YVal.str "/d", "./", "/", "ASC", 50⟩ :=
  claim_C7 cfgDemo "./" "/" "ASC" 50 true 4 false true
    (YVal.str "h") (YVal.str "u") (YVal.str "/k") (YVal.int 22) (YVal.str "/d")
    (by rfl) (by rfl) (by rfl) (by rfl) (by rfl)

/-- Claim C8: the mapping `init` persists has exactly the keys `host`,
`port`, `user`, `keypath`, `db` in this order and no others; `keypath`
and `db` hold the tilde-expanded user-supplied paths while `host`,
`port` and `user` are stored as given; and any exit-0 run of `init`
stores exactly that mapping at the expanded save path. -/
theorem claim_C8 (fs : FS) (home cp host : String) (port : Int)
    (user keypath db : String) (ow conf : Bool) (fs2 : FS) :
    ((initCfg home host port user keypath db).map Prod.fst =
        ["host", "port", "user", "keypath", "db"] ∧
      lookupKey (initCfg home host port user keypath db) "host" = some (YVal.str host) ∧
      lookupKey (initCfg home host port user keypath db) "port" = some (YVal.int port) ∧
      lookupKey (initCfg home host port user keypath db) "user" = some (YVal.str user) ∧
      lookupKey (initCfg home host port user keypath db) "keypath" =
        some (YVal.str (expanduser home keypath)) ∧
      lookupKey (initCfg home host port user keypath db) "db" =
        some (YVal.str (expanduser home db))) ∧
    (init fs home cp host port user keypath db ow conf = Except.ok ⟨fs2, 0⟩ →
      fileAt fs2 (expanduser home cp) =
        some (Doc.yaml (YVal.map (initCfg home host port user keypath db)))) :=
  ⟨⟨rfl, rfl, rfl, rfl, rfl, rfl⟩,
    fun h => init_ok_fileAt fs home cp host port user keypath db ow conf fs2 h⟩

/-- Claim C8 witness: a concrete exit-0 `init` run stores the collected
mapping at the expanded save path. -/
theorem claim_C8_witness :
    fileAt
        (writeFile fsHome (expanduser "/home/u" "~/.as.yaml")
          (Doc.yaml (YVal.map (initCfg "/home/u" "h" 22 "u" "/k" "./files.db"))))
        (expanduser "/home/u" "~/.as.yaml") =
      some (Doc.yaml (YVal.map (initCfg "/home/u" "h" 22 "u" "/k" "./files.db"))) :=
  (claim_C8 fsHome "/home/u" "~/.as.yaml" "h" 22 "u" "/k" "./files.db" false false
    (writeFile fsHome (expanduser "/home/u" "~/.as.yaml")
      (Doc.yaml (YVal.map (initCfg "/home/u" "h" 22 "u" "/k" "./files.db"))))).2
    (by rfl)

/-- Claim C9: on a readable config file whose content is malformed YAML,
or well-formed YAML that is not a mapping, the exception raised —
`YAMLError` or `AttributeError` respectively — is neither the I/O error
nor the config-invalid error, so the two dispatcher handlers do not
catch it and the invocation ends in an unhandled exception instead of
exit code 1 or 2. -/
theorem claim_C9 (fs : FS) (home sub config : String) (hsub : sub ≠ "init") :
    (fileAt fs (expanduser home config) = some Doc.bad →
      read_config fs (expanduser home config) = Except.error PyError.yamlError ∧
      cli fs home sub config = Except.error PyError.yamlError) ∧
    (∀ v, fileAt fs (expanduser home config) = some (Doc.yaml v) → v.isMap = false →
      read_config fs (expanduser home config) = Except.error PyError.attributeError ∧
      cli fs home sub config = Except.error PyError.attributeError) ∧
    (PyError.yamlError ≠ PyError.ioError ∧
     PyError.yamlError ≠ PyError.invalidConfig ∧
     PyError.attributeError ≠ PyError.ioError ∧
     PyError.attributeError ≠ PyError.invalidConfig) := by
  refine ⟨fun h => ?_, fun v hv hm => ?_, by decide⟩
  · have hr : read_config fs (expanduser home config) = Except.error PyError.yamlError := by
      simp [read_config, h, yaml_load]
    exact ⟨hr, by simp [cli, hsub, hr]⟩
  · have hr : read_config fs (expanduser home config) =
        Except.error PyError.attributeError := by
      cases v <;> simp_all [read_config, yaml_load, YVal.isMap]
    exact ⟨hr, by simp [cli, hsub, hr]⟩

/-- Claim C9 witness: invoking `sync` with a malformed YAML config file
propagates the `YAMLError` out of the dispatcher. -/
theorem claim_C9_witness :
    read_config fsBad (expanduser "/home/u" "/c.yaml") = Except.error PyError.yamlError ∧
    cli fsBad "/home/u" "sync" "/c.yaml" = Except.error PyError.yamlError :=
  (claim_C9 fsBad "/home/u" "sync" "/c.yaml" (by decide)).1 (by rfl)

/-- Claim C10 counterexample: a run of `init` whose expanded save path
`as.yaml` has an empty directory component, but which is aborted by
declining the overwrite confirmation at the existing file, never reaches
the parent-directory creation step: it returns exit code 1 with no
exception, refuting the claim as universally stated. -/
theorem claim_C10_counterexample :
    dirname (expanduser "/home/u" "as.yaml") = "" ∧
    init fsBare "/home/u" "as.yaml" "h" 22 "u" "/k" "./files.db" false false =
      Except.ok ⟨fsBare, 1⟩ := ⟨rfl, rfl⟩

/-- Claim C10 (amended): every run of `init` whose tilde-expanded save
path has an empty directory component and which is not aborted by
declining the overwrite confirmation — that is, `--overwrite` is set,
or no file exists at the path, or the confirmation is accepted —
invokes `os.makedirs` on the empty string, which raises an unhandled
`FileNotFoundError`: the config file is not written and no exit code is
returned. -/
theorem claim_C10 (fs : FS) (home cp host : String) (port : Int)
    (user keypath db : String) (ow conf : Bool)
    (hdir : dirname (expanduser home cp) = "")
    (hrun : ow = true ∨ path_exists fs (expanduser home cp) = false ∨ conf = true) :
    init fs home cp host port user keypath db ow conf =
      Except.error PyError.ioError := by
  have hiw : initWrite fs (expanduser home cp) (initCfg home host port user keypath db) =
      Except.error PyError.ioError := by
    unfold initWrite makedirs
    rw [hdir]
    simp [path_exists_empty]
  unfold init
  rcases hrun with h | h | h
  · subst h
    simpa using hiw
  · simp [h, hiw]
  · subst h
    by_cases ho : (!ow && path_exists fs (expanduser home cp)) = true
    · rw [if_pos ho]
      simpa using hiw
    · rw [if_neg ho]
      exact hiw

/-- Claim C10 witness: `init` on an empty filesystem with the bare save
path `as.yaml` raises the unhandled exception out of
`os.makedirs("")`. -/
theorem claim_C10_witness :
    init ⟨[], [], []⟩ "/home/u" "as.yaml" "h" 22 "u" "/k" "./files.db" false false =
      Except.error PyError.ioError :=
  claim_C10 ⟨[], [], []⟩ "/home/u" "as.yaml" "h" 22 "u" "/k" "./files.db" false false
    (by rfl) (Or.inr (Or.inl (by rfl)))
